import Mathlib

/-!
Shallow embedding of the ParasitePro detection pipeline.

Sources embedded here:
* `server/services/aiAnalysis.js` — confidence calibration, reliability
  thresholds, encyclopedia enrichment, Claude-primary/GPT-fallback protocol,
  overall-urgency computation (`analyzeImage`).
* `server/data/parasiteEncyclopedia.js` — the `PARASITE_DATABASE` entries
  (only the `id` / `commonName` / `scientificName` fields, which are the only
  fields the matcher in `enrichDetections` reads).
* `analysisRoutes.js` — the legacy `POST /upload` handler (credit check,
  debit, Cloudinary upload, AI call, refund-on-failure, status updates).
* `backend/src/routes/analysis.ts` — the TypeScript `POST /upload` handler
  (credit check, upload, transactional debit + row insert, detached AI task).

Numbers are embedded as rationals, which keep every constant and comparison
of the source exact.

JS-specific semantics are embedded explicitly:
* `x || d` treats `undefined`, `0` and `""` as falsy — see `jsOrRat`,
  `jsOrStr`, `jsOrNat`.
* `obj?.field` is `Option.bind`.
* `a.includes(b)` on strings is substring containment — see `strIncludes`.
-/

namespace ParasitePro

/-- JS `x || d` on an optional number: `undefined` and `0` are falsy. -/
def jsOrRat (v : Option ℚ) (d : ℚ) : ℚ :=
  match v with
  | none => d
  | some x => if x = 0 then d else x

/-- JS `x || d` on an optional string: `undefined` and `""` are falsy. -/
def jsOrStr (v : Option String) (d : String) : String :=
  match v with
  | none => d
  | some s => if s = "" then d else s

/-- JS `x || 0` on an optional natural: `undefined` and `0` are falsy, both
yielding the default. -/
def jsOrNat (v : Option Nat) (d : Nat) : Nat :=
  match v with
  | none => d
  | some x => if x = 0 then d else x

/-- Containment of `needle` as a contiguous run inside `hay`. -/
def containsSubList (needle : List Char) : List Char → Bool
  | [] => needle.isEmpty
  | c :: t => needle.isPrefixOf (c :: t) || containsSubList needle t

/-- JS `hay.includes(needle)`: substring containment, embedded as infix
containment on the character lists. -/
def strIncludes (hay needle : String) : Bool :=
  containsSubList needle.toList hay.toList

/-- JS `s.toLowerCase()`: per-character lower-casing (the strings involved
are ASCII, where JS and `Char.toLower` agree). -/
def strToLower (s : String) : String := String.mk (s.data.map Char.toLower)

/-- Image quality report as consumed by the calibrator: the only field
`calibrateConfidence` / `isDetectionReliable` read is `qualityLabel`
(accessed as `imageQuality?.qualityLabel`, hence `Option`). -/
structure ImageQuality where
  qualityLabel : Option String
deriving Repr, DecidableEq

/-- The `qualityPenalty` object literal in `calibrateConfidence`
(aiAnalysis.js): property lookup yields `undefined` for an unknown label. -/
def qualityPenaltyLookup (label : String) : Option ℚ :=
  if label = "excellent" then some 0
  else if label = "good" then some (2/100)
  else if label = "fair" then some (8/100)
  else if label = "poor" then some (18/100)
  else none

/-- `calibrateConfidence(rawConfidence, imageQuality)` from aiAnalysis.js:
`penalty = qualityPenalty[imageQuality?.qualityLabel] || 0.05`, then
`Math.max(0.35, Math.min(0.99, rawConfidence - penalty))`.
Note the JS `||`: the table value `0` for `"excellent"` is falsy, so the
`0.05` default applies to `"excellent"` as well. -/
def calibrateConfidence (rawConfidence : ℚ) (imageQuality : Option ImageQuality) : ℚ :=
  let penalty := jsOrRat ((imageQuality.bind (·.qualityLabel)).bind qualityPenaltyLookup) (5/100)
  let calibrated := rawConfidence - penalty
  max (35/100) (min (99/100) calibrated)

/-- The `thresholds` object literal in `isDetectionReliable` (aiAnalysis.js). -/
def reliabilityThresholdLookup (label : String) : Option ℚ :=
  if label = "excellent" then some (45/100)
  else if label = "good" then some (50/100)
  else if label = "fair" then some (60/100)
  else if label = "poor" then some (72/100)
  else none

/-- `isDetectionReliable(confidenceScore, imageQuality)` from aiAnalysis.js:
`threshold = thresholds[imageQuality?.qualityLabel] || 0.55`, then
`confidenceScore >= threshold`. -/
def isDetectionReliable (confidenceScore : ℚ) (imageQuality : Option ImageQuality) : Bool :=
  let threshold := jsOrRat ((imageQuality.bind (·.qualityLabel)).bind reliabilityThresholdLookup) (55/100)
  decide (threshold ≤ confidenceScore)

/-- Reliability threshold table exactly as the spec words it (§4.4 step 3):
excellent→0.45, good→0.50, fair→0.60, poor→0.72, unknown→0.55. -/
def reliabilityThresholdSpec (label : Option String) : ℚ :=
  if label = some "excellent" then 45/100
  else if label = some "good" then 50/100
  else if label = some "fair" then 60/100
  else if label = some "poor" then 72/100
  else 55/100

/-- One entry of `PARASITE_DATABASE` (parasiteEncyclopedia.js), restricted to
the three fields the matcher in `enrichDetections` reads; the remaining
fields (symptoms, treatments, prevalence, …) never influence matching. -/
structure ParasiteEntry where
  id : String
  commonName : String
  scientificName : String
deriving Repr, DecidableEq

/-- The 15 entries of `PARASITE_DATABASE` in their stored order, with the
exact `id` / `commonName` / `scientificName` strings of the source. -/
def PARASITE_DATABASE : List ParasiteEntry := [
  ⟨"giardia-001", "Giardia", "Giardia lamblia (Giardia intestinalis)"⟩,
  ⟨"blastocystis-001", "Blastocystis", "Blastocystis hominis"⟩,
  ⟨"cryptosporidium-001", "Cryptosporidium", "Cryptosporidium parvum"⟩,
  ⟨"entamoeba-001", "Amoeba / Amoebiasis", "Entamoeba histolytica"⟩,
  ⟨"dientamoeba-001", "Dientamoeba", "Dientamoeba fragilis"⟩,
  ⟨"ascaris-001", "Roundworm", "Ascaris lumbricoides"⟩,
  ⟨"enterobius-001", "Pinworm / Threadworm", "Enterobius vermicularis"⟩,
  ⟨"taenia-saginata-001", "Beef Tapeworm", "Taenia saginata"⟩,
  ⟨"taenia-solium-001", "Pork Tapeworm / Neurocysticercosis", "Taenia solium"⟩,
  ⟨"hookworm-001", "Hookworm", "Ancylostoma duodenale / Necator americanus"⟩,
  ⟨"strongyloides-001", "Threadworm / Strongyloides", "Strongyloides stercoralis"⟩,
  ⟨"trichuris-001", "Whipworm", "Trichuris trichiura"⟩,
  ⟨"sarcoptes-001", "Scabies Mite", "Sarcoptes scabiei"⟩,
  ⟨"pediculus-capitis-001", "Head Lice", "Pediculus humanus capitis"⟩,
  ⟨"demodex-001", "Demodex Face Mite", "Demodex folliculorum / Demodex brevis"⟩]

/-- A raw detection as consumed by `enrichDetections`: only the fields that
function reads are kept (urgencyLevel is read later by `analyzeImage`);
every field comes from provider JSON and may be absent. -/
structure Detection where
  parasiteId : Option String
  commonName : Option String
  scientificName : Option String
  urgencyLevel : Option String
  confidenceScore : Option ℚ
deriving Repr, DecidableEq

/-- The predicate of `PARASITE_DATABASE.find(...)` in `enrichDetections`:
for each entry `p`: exact id equality with `detection.parasiteId`, OR the
lower-cased scientific name of `p` contains the lower-cased (defaulted to
empty) scientific name of the detection, OR likewise for the common name.
Note the entry-major shape: for each entry, the three criteria are OR-ed.
A strict equality against `undefined` is `false` (ids are strings). -/
def detectionMatches (d : Detection) (p : ParasiteEntry) : Bool :=
  (match d.parasiteId with
   | some pid => p.id == pid
   | none => false) ||
  strIncludes (strToLower p.scientificName) (jsOrStr (d.scientificName.map strToLower) "") ||
  strIncludes (strToLower p.commonName) (jsOrStr (d.commonName.map strToLower) "")

/-- A detection after `enrichDetections` (aiAnalysis.js): spread of the raw
detection plus calibration results and the matched encyclopedia entry
(the source copies selected fields of the entry; we keep the entry itself —
the copied fields are projections of it). -/
structure EnrichedDetection where
  parasiteId : Option String
  commonName : Option String
  scientificName : Option String
  urgencyLevel : Option String
  confidenceScore : ℚ
  confidenceRaw : ℚ
  isReliableDetection : Bool
  confidenceLabel : String
  encyclopediaEntry : Option ParasiteEntry
deriving Repr, DecidableEq

/-- The body of the `aiDetections.map(...)` callback in `enrichDetections`:
find the first matching encyclopedia entry, calibrate
(`detection.confidenceScore || 0.5`), decide reliability on the calibrated
score, derive the confidence label from the fixed 0.85/0.65/0.45 cut points,
and override `parasiteId` with the entry id when an entry matched
(`encyclopediaEntry?.id || detection.parasiteId`). -/
def enrichDetection (imageQuality : Option ImageQuality) (d : Detection) : EnrichedDetection :=
  let encyclopediaEntry := PARASITE_DATABASE.find? (fun p => detectionMatches d p)
  let rawConfidence := jsOrRat d.confidenceScore (1/2)
  let calibratedConfidence := calibrateConfidence rawConfidence imageQuality
  let reliable := isDetectionReliable calibratedConfidence imageQuality
  { parasiteId :=
      match encyclopediaEntry with
      | some e => if e.id = "" then d.parasiteId else some e.id
      | none => d.parasiteId
    commonName := d.commonName
    scientificName := d.scientificName
    urgencyLevel := d.urgencyLevel
    confidenceScore := calibratedConfidence
    confidenceRaw := rawConfidence
    isReliableDetection := reliable
    confidenceLabel :=
      if 85/100 ≤ calibratedConfidence then "high"
      else if 65/100 ≤ calibratedConfidence then "moderate"
      else if 45/100 ≤ calibratedConfidence then "low"
      else "insufficient"
    encyclopediaEntry := encyclopediaEntry }

/-- `enrichDetections(aiDetections, imageQuality)` from aiAnalysis.js. -/
def enrichDetections (aiDetections : List Detection) (imageQuality : Option ImageQuality) :
    List EnrichedDetection :=
  aiDetections.map (enrichDetection imageQuality)

/-- The matcher as the spec words it (§4.5): try the criteria in priority
order — exact ID match over the whole database first, then case-insensitive
substring match of the scientific name, then of the common name — first
matching criterion wins. -/
def specRefMatch (d : Detection) (db : List ParasiteEntry) : Option ParasiteEntry :=
  (db.find? (fun p =>
    match d.parasiteId with
    | some pid => p.id == pid
    | none => false)).orElse (fun _ =>
  (db.find? (fun p =>
    strIncludes (strToLower p.scientificName) (jsOrStr (d.scientificName.map strToLower) ""))).orElse (fun _ =>
  db.find? (fun p =>
    strIncludes (strToLower p.commonName) (jsOrStr (d.commonName.map strToLower) ""))))

/-- Free-text metadata accompanying an upload, as passed to `analyzeImage`
and into the prompt construction. -/
structure SampleMetadata where
  sampleType : Option String
  collectionDate : Option String
  location : Option String
  notes : Option String
deriving Repr, DecidableEq

def ANALYSIS_PROMPT : String :=
  "Analyse this medical sample image for potential parasitic organisms.\n\nSample metadata:\n- Type: \x7bSAMPLE_TYPE\x7d\n- Collection date: \x7bCOLLECTION_DATE\x7d\n- Location: \x7bLOCATION\x7d\n- Patient notes: \x7bNOTES\x7d\n\nReturn ONLY a valid JSON object with this exact structure:\n\x7b\n  \"imageQualityAssessment\": \x7b\n    \"suitableForAnalysis\": true/false,\n    \"qualityNotes\": \"Brief description of image quality\",\n    \"limitations\": [\"list of any limitations affecting analysis\"]\n  \x7d,\n  \"analysisSteps\": [\n    \x7b\n      \"step\": 1,\n      \"title\": \"Step title\",\n      \"observation\": \"What you observe\",\n      \"significance\": \"What this means diagnostically\"\n    \x7d\n  ],\n  \"detections\": [\n    \x7b\n      \"parasiteId\": \"use exact ID from common parasites or best-match string\",\n      \"commonName\": \"Common name\",\n      \"scientificName\": \"Scientific name\",\n      \"parasiteType\": \"protozoa|helminth|ectoparasite\",\n      \"urgencyLevel\": \"low|moderate|high|emergency\",\n      \"confidenceScore\": 0.0-1.0,\n      \"lifeStage\": \"cyst|trophozoite|egg|larva|adult|proglottid|other\",\n      \"visualEvidence\": \"Specific morphological features seen that support this identification\",\n      \"differentialDiagnoses\": [\n        \x7b\n          \"name\": \"Alternative organism\",\n          \"reason\": \"Why this was considered\",\n          \"confidenceScore\": 0.0-1.0,\n          \"ruledOutBecause\": \"Why this is less likely\"\n        \x7d\n      ],\n      \"boundingBox\": null\n    \x7d\n  ],\n  \"overallConclusion\": \"Summary of findings in plain language\",\n  \"recommendedActions\": [\n    \"Specific, prioritised action items for the user\"\n  ],\n  \"recommendedTests\": [\n    \"Specific pathology tests that would confirm findings (e.g., \x27Stool PCR for Giardia lamblia\x27)\"\n  ],\n  \"naturalTreatmentNotes\": \"Brief mention of supportive holistic approaches (1-2 sentences)\",\n  \"disclaimer\": \"This analysis is educational only and does not constitute medical diagnosis.\"\n\x7d\n\nIf no parasites are detected, return an empty detections array and explain what WAS observed.\nIf image quality is insufficient, return suitableForAnalysis: false and explain why."

/-- The prompt construction shared verbatim by `analyseWithClaude` and
`analyseWithGPT4o` (aiAnalysis.js): the same `ANALYSIS_PROMPT` template with
the same four placeholder substitutions (`metadata.sampleType` with the
default `not specified`, etc.). Each placeholder occurs exactly once in the template, so
JS first-occurrence `replace` and Lean `String.replace` agree. -/
def buildPrompt (metadata : SampleMetadata) : String :=
  ((((ANALYSIS_PROMPT.replace "\x7bSAMPLE_TYPE\x7d" (jsOrStr metadata.sampleType "not specified")).replace
    "\x7bCOLLECTION_DATE\x7d" (jsOrStr metadata.collectionDate "not specified")).replace
    "\x7bLOCATION\x7d" (jsOrStr metadata.location "not specified")).replace
    "\x7bNOTES\x7d" (jsOrStr metadata.notes "none"))

/-- Provider response shape as far as the downstream pipeline reads it:
`detections` and `overallConclusion` (the reasoning-step and recommendation
fields are carried through verbatim and play no role in the claims). -/
structure AIResult where
  detections : Option (List Detection)
  overallConclusion : Option String
deriving Repr, DecidableEq

/-- One external provider invocation as observed at the call boundary:
which provider, with which prompt, for which metadata. -/
structure ProviderCall where
  provider : String
  prompt : String
  metadata : SampleMetadata
deriving Repr, DecidableEq

/-- `analyseWithClaude(imageBase64, metadata)`: builds the prompt and makes
one primary-provider call. The transport (API request plus `JSON.parse` of
the response body) is an oracle; a thrown API error, a network failure and a
non-JSON payload are all the `Except.error` case. The call made is returned
alongside so the protocol theorems can speak about the call trace. -/
def analyseWithClaude (claudeOracle : String → SampleMetadata → Except String AIResult)
    (metadata : SampleMetadata) : Except String AIResult × ProviderCall :=
  let prompt := buildPrompt metadata
  (claudeOracle prompt metadata, ⟨"claude", prompt, metadata⟩)

/-- `analyseWithGPT4o(imageBase64, metadata)`: identical prompt construction,
fallback provider. -/
def analyseWithGPT4o (gptOracle : String → SampleMetadata → Except String AIResult)
    (metadata : SampleMetadata) : Except String AIResult × ProviderCall :=
  let prompt := buildPrompt metadata
  (gptOracle prompt metadata, ⟨"gpt-4o", prompt, metadata⟩)

/-- Step 2 of `analyzeImage` (aiAnalysis.js): try Claude; on any thrown
error try GPT-4o once; if that also throws, throw
`AI analysis service temporarily unavailable. Please try again.`.
Returns the AI result with the provider tag, plus the provider-call trace. -/
def aiProviderStep (claudeOracle gptOracle : String → SampleMetadata → Except String AIResult)
    (metadata : SampleMetadata) :
    Except String (AIResult × String) × List ProviderCall :=
  match analyseWithClaude claudeOracle metadata with
  | (Except.ok aiResult, c1) => (Except.ok (aiResult, "claude"), [c1])
  | (Except.error _, c1) =>
    match analyseWithGPT4o gptOracle metadata with
    | (Except.ok aiResult, c2) => (Except.ok (aiResult, "gpt-4o"), [c1, c2])
    | (Except.error _, c2) =>
      (Except.error "AI analysis service temporarily unavailable. Please try again.", [c1, c2])

/-- The `urgencyRanking` object literal in `analyzeImage`. -/
def urgencyRanking (label : String) : Option Nat :=
  if label = "emergency" then some 4
  else if label = "high" then some 3
  else if label = "moderate" then some 2
  else if label = "low" then some 1
  else none

/-- JS `urgencyRanking[x] || 0`: unknown labels (and an absent field) rank 0. -/
def jsUrgencyRank (label : Option String) : Nat :=
  jsOrNat (label.bind urgencyRanking) 0

/-- The reducer body of the `highestUrgency` computation in `analyzeImage`:
keep the accumulator unless the detection ranks strictly higher. -/
def urgencyStep (highest : Option String) (d : EnrichedDetection) : Option String :=
  if jsUrgencyRank d.urgencyLevel > jsUrgencyRank highest then d.urgencyLevel else highest

/-- The reduce over `reliableDetections` starting at `low`, from `analyzeImage` step 4. -/
def highestUrgency (reliableDetections : List EnrichedDetection) : Option String :=
  reliableDetections.foldl urgencyStep (some "low")

/-- The part of the `analyzeImage` result the claims read. -/
structure AnalysisOutput where
  aiProvider : String
  detections : List EnrichedDetection
  overallUrgency : Option String
  overallConclusion : String
  lowConfidenceDetections : List EnrichedDetection
deriving Repr, DecidableEq

/-- Steps 3-4 of `analyzeImage` (aiAnalysis.js), after the provider returned
`aiResult`: enrich `aiResult.detections || []`, keep the reliable ones as
`detections`, partition the rest into `lowConfidenceDetections`, and reduce
the reliable ones to the overall urgency. -/
def analyzeImagePure (aiProvider : String) (quality : Option ImageQuality) (aiResult : AIResult) :
    AnalysisOutput :=
  let enrichedDetections := enrichDetections (aiResult.detections.getD []) quality
  let reliableDetections := enrichedDetections.filter (·.isReliableDetection)
  { aiProvider := aiProvider
    detections := reliableDetections
    overallUrgency := highestUrgency reliableDetections
    overallConclusion := jsOrStr aiResult.overallConclusion "Analysis complete."
    lowConfidenceDetections := enrichedDetections.filter (fun d => !d.isReliableDetection) }

/-- `analyzeImage(imageBuffer, metadata)` with the two effectful boundaries
made explicit: image preprocessing is summarised by the quality report it
produces (`preprocessImage` computes it from the bytes; the claims range
over every possible report), and each provider call is an oracle. Failure of
both providers propagates as `Except.error` — there is no path that turns
provider failure into an empty-detections success. -/
def analyzeImage (claudeOracle gptOracle : String → SampleMetadata → Except String AIResult)
    (quality : Option ImageQuality) (metadata : SampleMetadata) :
    Except String AnalysisOutput × List ProviderCall :=
  match aiProviderStep claudeOracle gptOracle metadata with
  | (Except.error e, calls) => (Except.error e, calls)
  | (Except.ok (aiResult, provider), calls) =>
    (Except.ok (analyzeImagePure provider quality aiResult), calls)

/-- The four urgency labels of the fixed total order. -/
def urgencyLabels : List (Option String) := [some "low", some "moderate", some "high", some "emergency"]

/-- The label of a given rank under the fixed order (4 emergency, 3 high,
2 moderate, otherwise low). -/
def rankToLabel (r : Nat) : Option String :=
  if r = 4 then some "emergency"
  else if r = 3 then some "high"
  else if r = 2 then some "moderate"
  else some "low"

/-- The persisted state the upload handlers touch: the credit balance of the user
and the analysis rows of the user (id, status). -/
structure DBState where
  credits : Int
  analyses : List (Nat × String)
deriving Repr, DecidableEq

/-- `UPDATE analyses SET status = $2 WHERE id = $1`. -/
def setStatus (analyses : List (Nat × String)) (analysisId : Nat) (status : String) :
    List (Nat × String) :=
  analyses.map (fun a => if a.1 = analysisId then (a.1, status) else a)

/-- Responses of the legacy `POST /upload` handler (analysisRoutes.js). -/
inductive LegacyUploadResp
  | noFile
  | userNotFound
  | insufficientCredits (balance : Int)
  | uploadError
  | aiFailed (analysisId : Nat)
  | completed (analysisId : Nat) (creditsRemaining : Int)
deriving Repr, DecidableEq

/-- The legacy `POST /upload` handler (analysisRoutes.js), with its external
effects as parameters: `filePresent`/`userFound` summarise the request
checks, `cloudinaryOk` whether both Cloudinary uploads resolve, `aiOutcome`
whether `analyzeImage` resolves or rejects, `newId` the id of the inserted
analysis row. The returned list is the trace of the balance after
each credit mutation, in order. Steps of the source: credit pre-check
(reject 402), debit 1, Cloudinary upload (a rejection lands in the outer
catch: 500, no row, no refund), insert `processing` row, run the AI (on
rejection: refund 1 and mark `failed`), else store detections and mark
`completed`. -/
def uploadLegacy (s : DBState) (filePresent userFound cloudinaryOk : Bool)
    (aiOutcome : Except String AnalysisOutput) (newId : Nat) :
    DBState × LegacyUploadResp × List Int :=
  if !filePresent then (s, LegacyUploadResp.noFile, [])
  else if !userFound then (s, LegacyUploadResp.userNotFound, [])
  else if s.credits < 1 then (s, LegacyUploadResp.insufficientCredits s.credits, [])
  else
    let s1 : DBState := { s with credits := s.credits - 1 }
    if !cloudinaryOk then (s1, LegacyUploadResp.uploadError, [s1.credits])
    else
      let s2 : DBState := { s1 with analyses := s1.analyses ++ [(newId, "processing")] }
      match aiOutcome with
      | Except.error _ =>
        let s3 : DBState :=
          { credits := s2.credits + 1, analyses := setStatus s2.analyses newId "failed" }
        (s3, LegacyUploadResp.aiFailed newId, [s1.credits, s3.credits])
      | Except.ok _ =>
        let s3 : DBState := { s2 with analyses := setStatus s2.analyses newId "completed" }
        (s3, LegacyUploadResp.completed newId s3.credits, [s1.credits])

/-- Responses of the TypeScript `POST /upload` handler
(backend/src/routes/analysis.ts). The 202 `accepted` response is sent before
the detached AI task settles. -/
inductive BackendUploadResp
  | validationFailed
  | noFile
  | userNotFound
  | insufficientCredits (balance : Int)
  | uploadError
  | accepted (analysisId : Nat)
deriving Repr, DecidableEq

/-- The TypeScript `POST /upload` handler (backend/src/routes/analysis.ts)
together with the settlement of its detached `analyzeImage(url)` promise.
Order of the source: express-validator checks, file check, user lookup and
credit pre-check (reject 402, before any mutation), Cloudinary upload (a
rejection lands in the outer catch before any mutation), a single
transaction debiting 1 credit and inserting the `processing` row, then the
fire-and-forget AI call whose `.then` stores detections and marks
`completed` and whose `.catch` only marks `failed` — the state returned is
the one after that detached task finished. -/
def uploadBackend (s : DBState) (validationOk filePresent userFound cloudinaryOk : Bool)
    (aiOutcome : Except String (List Detection)) (newId : Nat) :
    DBState × BackendUploadResp × List Int :=
  if !validationOk then (s, BackendUploadResp.validationFailed, [])
  else if !filePresent then (s, BackendUploadResp.noFile, [])
  else if !userFound then (s, BackendUploadResp.userNotFound, [])
  else if s.credits < 1 then (s, BackendUploadResp.insufficientCredits s.credits, [])
  else if !cloudinaryOk then (s, BackendUploadResp.uploadError, [])
  else
    let s1 : DBState :=
      { credits := s.credits - 1, analyses := s.analyses ++ [(newId, "processing")] }
    match aiOutcome with
    | Except.ok _ =>
      ({ s1 with analyses := setStatus s1.analyses newId "completed" },
       BackendUploadResp.accepted newId, [s1.credits])
    | Except.error _ =>
      ({ s1 with analyses := setStatus s1.analyses newId "failed" },
       BackendUploadResp.accepted newId, [s1.credits])

theorem jsOrRat_threshold_eq (label : Option String) :
    jsOrRat (label.bind reliabilityThresholdLookup) (55/100) = reliabilityThresholdSpec label := by
  rcases label with _ | s
  · rfl
  · simp only [Option.bind_some, reliabilityThresholdLookup, reliabilityThresholdSpec]
    split_ifs with h1 h2 h3 h4 <;> simp_all [jsOrRat]

/-- The penalty actually applied by `calibrateConfidence` is always
nonnegative (table values and the `0.05` default are all `≥ 0`). -/
theorem penalty_nonneg (labelOpt : Option String) :
    0 ≤ jsOrRat (labelOpt.bind qualityPenaltyLookup) (5/100) := by
  rcases labelOpt with _ | s
  · norm_num [jsOrRat]
  · show 0 ≤ jsOrRat (qualityPenaltyLookup s) (5/100)
    unfold qualityPenaltyLookup
    split_ifs <;> norm_num [jsOrRat]

/-- The penalty actually applied by `calibrateConfidence` is at most `0.18`. -/
theorem penalty_le (labelOpt : Option String) :
    jsOrRat (labelOpt.bind qualityPenaltyLookup) (5/100) ≤ 18/100 := by
  rcases labelOpt with _ | s
  · norm_num [jsOrRat]
  · show jsOrRat (qualityPenaltyLookup s) (5/100) ≤ 18/100
    unfold qualityPenaltyLookup
    split_ifs <;> norm_num [jsOrRat]

/-- C9: for every raw confidence and every image quality report, the
calibrated confidence lies in the closed interval [0.35, 0.99]: the clamp
`Math.max(0.35, Math.min(0.99, _))` enforces the floor and the ceiling. -/
theorem calibrated_confidence_in_floor_ceiling (rawConfidence : ℚ) (imageQuality : Option ImageQuality) :
    35/100 ≤ calibrateConfidence rawConfidence imageQuality ∧
    calibrateConfidence rawConfidence imageQuality ≤ 99/100 := by
  unfold calibrateConfidence
  constructor
  · exact le_max_left _ _
  · exact max_le (by norm_num) (le_trans (min_le_left _ _) (by norm_num))

/-- C2 counterexample: for quality label "good" and raw confidence 0.10 the
calibrated confidence is 0.35, which is strictly greater than the raw
confidence — the 0.35 floor can boost, so `calibrated ≤ raw` fails on a raw
confidence inside [0,1]. -/
theorem calibration_can_boost_low_raw :
    calibrateConfidence (1/10) (some ⟨some "good"⟩) = 35/100 ∧
    ¬ (calibrateConfidence (1/10) (some ⟨some "good"⟩) ≤ 1/10) := by
  have h : calibrateConfidence (1/10) (some ⟨some "good"⟩) = 35/100 := by
    unfold calibrateConfidence
    rw [show ((some (⟨some "good"⟩ : ImageQuality)).bind (·.qualityLabel)).bind
        qualityPenaltyLookup = some (2/100) from rfl]
    simp only [jsOrRat]
    norm_num
  exact ⟨h, by rw [h]; norm_num⟩

/-- C2 (amended): the calibrated confidence never exceeds
`max(rawConfidence, 0.35)` — calibration only penalizes, except that raw
confidences below the 0.35 floor are raised to the floor; in particular
`calibrated ≤ raw` does hold once `raw ≥ 0.53` (raw minus the largest
possible penalty 0.18 is then at or above the floor). -/
theorem calibrated_le_max_raw_floor (rawConfidence : ℚ) (imageQuality : Option ImageQuality) :
    calibrateConfidence rawConfidence imageQuality ≤ max rawConfidence (35/100) ∧
    (53/100 ≤ rawConfidence → calibrateConfidence rawConfidence imageQuality ≤ rawConfidence) := by
  have hp0 := penalty_nonneg (imageQuality.bind (·.qualityLabel))
  have hp1 := penalty_le (imageQuality.bind (·.qualityLabel))
  unfold calibrateConfidence
  constructor
  · apply max_le (le_max_right _ _)
    apply le_trans (min_le_right _ _)
    apply le_trans (by linarith) (le_max_left _ _)
  · intro hraw
    apply max_le (by linarith)
    exact le_trans (min_le_right _ _) (by linarith)

/-- Witness for the amended C2 at raw confidence 0.9 and quality "poor". -/
theorem calibrated_le_max_raw_floor_witness :
    calibrateConfidence (9/10) (some ⟨some "poor"⟩) ≤ 9/10 :=
  (calibrated_le_max_raw_floor (9/10) (some ⟨some "poor"⟩)).2 (by norm_num)

/-- C3: the code evaluated at quality label "excellent" and raw confidence
0.50 yields 0.45, not the 0.50 the penalty table promises: the object entry
`excellent: 0` is falsy in JS, so `qualityPenalty[label] || 0.05` replaces
the intended 0 penalty with the 0.05 default. -/
theorem calibrate_excellent_half_is_045 :
    calibrateConfidence (1/2) (some ⟨some "excellent"⟩) = 45/100 := by
  unfold calibrateConfidence
  rw [show ((some (⟨some "excellent"⟩ : ImageQuality)).bind (·.qualityLabel)).bind
      qualityPenaltyLookup = some 0 from rfl]
  simp only [jsOrRat]
  norm_num

/-- C4: `isDetectionReliable` holds iff the score reaches the reliability
threshold of the quality label of the image per the fixed table (excellent→0.45,
good→0.50, fair→0.60, poor→0.72, unknown→0.55); and at quality "poor" with
raw confidence 0.70 the calibrated confidence is 0.52 and reliability fails
(0.52 < 0.72). -/
theorem reliable_iff_threshold (confidenceScore : ℚ) (imageQuality : Option ImageQuality) :
    (isDetectionReliable confidenceScore imageQuality = true ↔
      reliabilityThresholdSpec (imageQuality.bind (·.qualityLabel)) ≤ confidenceScore) ∧
    calibrateConfidence (7/10) (some ⟨some "poor"⟩) = 13/25 ∧
    isDetectionReliable (13/25) (some ⟨some "poor"⟩) = false := by
  refine ⟨?_, ?_, ?_⟩
  · unfold isDetectionReliable
    rw [jsOrRat_threshold_eq]
    simp
  · unfold calibrateConfidence
    rw [show ((some (⟨some "poor"⟩ : ImageQuality)).bind (·.qualityLabel)).bind
        qualityPenaltyLookup = some (18/100) from rfl]
    simp only [jsOrRat]
    norm_num
  · unfold isDetectionReliable
    rw [show ((some (⟨some "poor"⟩ : ImageQuality)).bind (·.qualityLabel)).bind
        reliabilityThresholdLookup = some (72/100) from rfl]
    simp only [jsOrRat]
    norm_num

/-- Witness for C4 at score 0.9 and quality "poor" (0.72 ≤ 0.9). -/
theorem reliable_iff_threshold_witness :
    isDetectionReliable (9/10) (some ⟨some "poor"⟩) = true :=
  (reliable_iff_threshold (9/10) (some ⟨some "poor"⟩)).1.mpr
    (by rw [show reliabilityThresholdSpec ((some (⟨some "poor"⟩ : ImageQuality)).bind
          (·.qualityLabel)) = 72/100 from rfl]
        norm_num)

theorem containsSubList_nil (l : List Char) : containsSubList [] l = true := by
  cases l <;> rfl

theorem strIncludes_empty (hay : String) : strIncludes hay "" = true := by
  unfold strIncludes
  exact containsSubList_nil _

/-- `List.find?` returns the first element satisfying the predicate: the list
splits at the returned element and everything before it fails the predicate. -/
theorem find?_first_split {α : Type} (p : α → Bool) :
    ∀ (l : List α) (a : α), l.find? p = some a →
      ∃ l₁ l₂, l = l₁ ++ a :: l₂ ∧ p a = true ∧ ∀ x ∈ l₁, p x = false := by
  intro l
  induction l with
  | nil => intro a h; simp at h
  | cons hd tl ih =>
    intro a h
    by_cases hp : p hd = true
    · rw [List.find?_cons_of_pos _ hp] at h
      cases h
      exact ⟨[], tl, rfl, hp, by simp⟩
    · rw [List.find?_cons_of_neg _ (by simpa using hp)] at h
      obtain ⟨l₁, l₂, hsplit, hpa, hbefore⟩ := ih a h
      refine ⟨hd :: l₁, l₂, by rw [hsplit]; rfl, hpa, ?_⟩
      intro x hx
      rcases List.mem_cons.mp hx with hx | hx
      · subst hx; simpa using hp
      · exact hbefore x hx

theorem enrichDetection_entry (q : Option ImageQuality) (d : Detection) :
    (enrichDetection q d).encyclopediaEntry =
      PARASITE_DATABASE.find? (fun p => detectionMatches d p) := rfl

theorem enrichDetection_parasiteId (q : Option ImageQuality) (d : Detection) :
    (enrichDetection q d).parasiteId =
      (match PARASITE_DATABASE.find? (fun p => detectionMatches d p) with
       | some e => if e.id = "" then d.parasiteId else some e.id
       | none => d.parasiteId) := rfl

/-- C8 counterexample: a detection whose `parasiteId` is exactly the id of
the second database entry (`blastocystis-001`) and whose scientific name
`"giardia"` is a substring of the scientific name of the first entry. The
priority order of the spec (exact ID first) would select `blastocystis-001`;
the single entry-major `find` of the code, an OR of all three criteria over
each entry in turn, selects the first
entry `giardia-001` instead. -/
theorem matcher_ignores_criterion_priority :
    (enrichDetection none ⟨some "blastocystis-001", some "zzz", some "giardia", none, some (9/10)⟩).encyclopediaEntry =
      some ⟨"giardia-001", "Giardia", "Giardia lamblia (Giardia intestinalis)"⟩ ∧
    specRefMatch ⟨some "blastocystis-001", some "zzz", some "giardia", none, some (9/10)⟩ PARASITE_DATABASE =
      some ⟨"blastocystis-001", "Blastocystis", "Blastocystis hominis"⟩ ∧
    (enrichDetection none ⟨some "blastocystis-001", some "zzz", some "giardia", none, some (9/10)⟩).encyclopediaEntry ≠
      specRefMatch ⟨some "blastocystis-001", some "zzz", some "giardia", none, some (9/10)⟩ PARASITE_DATABASE := by
  refine ⟨rfl, rfl, ?_⟩
  rw [enrichDetection_entry]
  decide

/-- C8 (amended): the matcher selects the first encyclopedia entry, in
database order, satisfying any one of the three criteria (exact ID match,
case-insensitive substring of the scientific name, case-insensitive
substring of the common name); when no entry satisfies any criterion it
returns no match and the detection keeps its own `parasiteId` (no error). -/
theorem matcher_first_entry_any_criterion (q : Option ImageQuality) (d : Detection) :
    ((enrichDetection q d).encyclopediaEntry = none →
       (∀ p ∈ PARASITE_DATABASE, detectionMatches d p = false) ∧
       (enrichDetection q d).parasiteId = d.parasiteId) ∧
    (∀ p, (enrichDetection q d).encyclopediaEntry = some p →
       ∃ l₁ l₂, PARASITE_DATABASE = l₁ ++ p :: l₂ ∧ detectionMatches d p = true ∧
         ∀ x ∈ l₁, detectionMatches d x = false) := by
  constructor
  · intro h
    rw [enrichDetection_entry] at h
    constructor
    · intro p hp
      have := List.find?_eq_none.mp h p hp
      simpa using this
    · rw [enrichDetection_parasiteId, h]
  · intro p hp
    rw [enrichDetection_entry] at hp
    exact find?_first_split _ _ _ hp

/-- Witness for the amended C8: a detection matching no entry keeps its own
`parasiteId` and is not enriched. -/
theorem matcher_first_entry_any_criterion_witness :
    (enrichDetection none ⟨some "nonexistent-999", some "qqqq", some "zzzz", none, none⟩).parasiteId =
      some "nonexistent-999" :=
  ((matcher_first_entry_any_criterion none
      ⟨some "nonexistent-999", some "qqqq", some "zzzz", none, none⟩).1 (by decide)).2

/-- C10: a detection with both name fields absent matches the first database
entry (`giardia-001`) whatever its `parasiteId`, because
the lower-cased scientific name defaults to the empty string and
`includes` of the empty string is true for every entry; the no-match outcome is unreachable
for nameless detections. -/
theorem nameless_detection_always_matches_first_entry (pid urg : Option String) (conf : Option ℚ)
    (q : Option ImageQuality) :
    (enrichDetection q ⟨pid, none, none, urg, conf⟩).encyclopediaEntry =
      some ⟨"giardia-001", "Giardia", "Giardia lamblia (Giardia intestinalis)"⟩ := by
  rw [enrichDetection_entry]
  have h1 : detectionMatches ⟨pid, none, none, urg, conf⟩
      ⟨"giardia-001", "Giardia", "Giardia lamblia (Giardia intestinalis)"⟩ = true := by
    unfold detectionMatches
    rw [show jsOrStr ((none : Option String).map strToLower) "" = "" from rfl]
    rw [strIncludes_empty]
    simp
  exact List.find?_cons_of_pos _ h1

/-- C5: when the primary provider call fails (thrown error, network failure
or unparseable JSON — all the error case of the oracle), exactly one
fallback call is made, with the identical prompt and the identical metadata;
if the fallback also fails the pipeline fails by throwing (no silent
empty-detections result), and if the fallback succeeds its result is used;
when the primary succeeds, no fallback call is made. -/
theorem primary_failure_triggers_single_identical_fallback
    (claudeOracle gptOracle : String → SampleMetadata → Except String AIResult)
    (quality : Option ImageQuality) (metadata : SampleMetadata) :
    (∀ e, claudeOracle (buildPrompt metadata) metadata = Except.error e →
      (analyzeImage claudeOracle gptOracle quality metadata).2 =
        [⟨"claude", buildPrompt metadata, metadata⟩, ⟨"gpt-4o", buildPrompt metadata, metadata⟩] ∧
      (∀ e2, gptOracle (buildPrompt metadata) metadata = Except.error e2 →
        (analyzeImage claudeOracle gptOracle quality metadata).1 =
          Except.error "AI analysis service temporarily unavailable. Please try again.") ∧
      (∀ a, gptOracle (buildPrompt metadata) metadata = Except.ok a →
        (analyzeImage claudeOracle gptOracle quality metadata).1 =
          Except.ok (analyzeImagePure "gpt-4o" quality a))) ∧
    (∀ a, claudeOracle (buildPrompt metadata) metadata = Except.ok a →
      (analyzeImage claudeOracle gptOracle quality metadata).2 =
        [⟨"claude", buildPrompt metadata, metadata⟩]) := by
  constructor
  · intro e he
    refine ⟨?_, ?_, ?_⟩
    · unfold analyzeImage aiProviderStep analyseWithClaude analyseWithGPT4o
      dsimp only
      rw [he]
      rcases hg : gptOracle (buildPrompt metadata) metadata with e2 | a <;> simp
    · intro e2 hg
      unfold analyzeImage aiProviderStep analyseWithClaude analyseWithGPT4o
      dsimp only
      rw [he, hg]
    · intro a hg
      unfold analyzeImage aiProviderStep analyseWithClaude analyseWithGPT4o
      dsimp only
      rw [he, hg]
  · intro a ha
    unfold analyzeImage aiProviderStep analyseWithClaude
    dsimp only
    rw [ha]

/-- Witness for C5: constant-failure oracles on empty metadata. -/
theorem primary_failure_fallback_witness :
    (analyzeImage (fun _ _ => Except.error "network down") (fun _ _ => Except.error "bad json")
        none ⟨none, none, none, none⟩).1 =
      Except.error "AI analysis service temporarily unavailable. Please try again." ∧
    (analyzeImage (fun _ _ => Except.error "network down") (fun _ _ => Except.error "bad json")
        none ⟨none, none, none, none⟩).2 =
      [⟨"claude", buildPrompt ⟨none, none, none, none⟩, ⟨none, none, none, none⟩⟩,
       ⟨"gpt-4o", buildPrompt ⟨none, none, none, none⟩, ⟨none, none, none, none⟩⟩] :=
  ⟨((primary_failure_triggers_single_identical_fallback _ _ none _).1 "network down" rfl).2.1
      "bad json" rfl,
   ((primary_failure_triggers_single_identical_fallback _ _ none _).1 "network down" rfl).1⟩

theorem rankToLabel_jsUrgencyRank (x : Option String) (hx : x ∈ urgencyLabels) :
    rankToLabel (jsUrgencyRank x) = x := by
  simp only [urgencyLabels, List.mem_cons, List.not_mem_nil, or_false] at hx
  rcases hx with h | h | h | h <;> subst h <;> rfl

theorem jsUrgencyRank_mem_le (x : Option String) (hx : x ∈ urgencyLabels) :
    1 ≤ jsUrgencyRank x ∧ jsUrgencyRank x ≤ 4 := by
  simp only [urgencyLabels, List.mem_cons, List.not_mem_nil, or_false] at hx
  rcases hx with h | h | h | h <;> subst h <;> exact ⟨by decide, by decide⟩

theorem urgencyStep_mem (acc : Option String) (d : EnrichedDetection)
    (hacc : acc ∈ urgencyLabels) (hd : d.urgencyLevel ∈ urgencyLabels) :
    urgencyStep acc d ∈ urgencyLabels := by
  unfold urgencyStep
  split_ifs <;> assumption

theorem jsUrgencyRank_urgencyStep (acc : Option String) (d : EnrichedDetection) :
    jsUrgencyRank (urgencyStep acc d) = max (jsUrgencyRank acc) (jsUrgencyRank d.urgencyLevel) := by
  unfold urgencyStep
  split_ifs with h
  · omega
  · omega

/-- The urgency fold computes the maximum rank and stays inside the four
labels, for any starting accumulator among the labels. -/
theorem highestUrgency_fold (ds : List EnrichedDetection) :
    ∀ acc : Option String, acc ∈ urgencyLabels →
      (∀ d ∈ ds, d.urgencyLevel ∈ urgencyLabels) →
      ds.foldl urgencyStep acc ∈ urgencyLabels ∧
      jsUrgencyRank (ds.foldl urgencyStep acc) =
        (ds.map (fun d => jsUrgencyRank d.urgencyLevel)).foldl max (jsUrgencyRank acc) := by
  induction ds with
  | nil => intro acc hacc _; exact ⟨hacc, rfl⟩
  | cons d ds ih =>
    intro acc hacc hmem
    have hd : d.urgencyLevel ∈ urgencyLabels := hmem d (List.mem_cons_self d ds)
    have hrest : ∀ x ∈ ds, x.urgencyLevel ∈ urgencyLabels :=
      fun x hx => hmem x (List.mem_cons_of_mem d hx)
    have hstep := urgencyStep_mem acc d hacc hd
    obtain ⟨h1, h2⟩ := ih (urgencyStep acc d) hstep hrest
    refine ⟨h1, ?_⟩
    simp only [List.foldl_cons, List.map_cons]
    rw [h2, jsUrgencyRank_urgencyStep]

theorem analyzeImagePure_overallUrgency (aiProvider : String) (quality : Option ImageQuality)
    (aiResult : AIResult) :
    (analyzeImagePure aiProvider quality aiResult).overallUrgency =
      highestUrgency (analyzeImagePure aiProvider quality aiResult).detections := rfl

/-- C6: for a completed analysis whose reliable detections carry labels of
the fixed order, the overall urgency is the maximum-severity label over the
reliable detections only (the unreliable ones are filtered out before the
reduce), and it is "low" when there are zero reliable detections. -/
theorem overall_urgency_is_max_over_reliable (aiProvider : String) (quality : Option ImageQuality)
    (aiResult : AIResult)
    (h : ∀ d ∈ (analyzeImagePure aiProvider quality aiResult).detections,
      d.urgencyLevel ∈ urgencyLabels) :
    (analyzeImagePure aiProvider quality aiResult).overallUrgency =
      rankToLabel (((analyzeImagePure aiProvider quality aiResult).detections.map
        (fun d => jsUrgencyRank d.urgencyLevel)).foldl max 1) ∧
    ((analyzeImagePure aiProvider quality aiResult).detections = [] →
      (analyzeImagePure aiProvider quality aiResult).overallUrgency = some "low") := by
  constructor
  · rw [analyzeImagePure_overallUrgency]
    unfold highestUrgency
    obtain ⟨hmem, hrank⟩ := highestUrgency_fold
      (analyzeImagePure aiProvider quality aiResult).detections (some "low") (by decide) h
    have := rankToLabel_jsUrgencyRank _ hmem
    rw [← this, hrank]
    rfl
  · intro hempty
    rw [analyzeImagePure_overallUrgency, hempty]
    rfl

/-- Witness for C6 at a provider result with no detections: zero reliable
detections give overall urgency "low". -/
theorem overall_urgency_witness :
    (analyzeImagePure "claude" none ⟨none, none⟩).overallUrgency = some "low" :=
  (overall_urgency_is_max_over_reliable "claude" none ⟨none, none⟩ (by decide)).2 rfl

/-- C7: in both upload handlers the credit balance can never go negative:
a request with a balance below 1 (valid file, existing user) is rejected
with the insufficient-credits error and the state is untouched (no debit, no
analysis row); a debit only ever happens from a balance that was at least 1
and takes exactly 1; and from a nonnegative balance every intermediate and
final balance stays nonnegative. -/
theorem credits_never_negative (s : DBState) (fp uf cOk vOk fp2 uf2 cOk2 : Bool)
    (ai : Except String AnalysisOutput) (ai2 : Except String (List Detection)) (n1 n2 : Nat) :
    (fp = true → uf = true → s.credits < 1 →
      uploadLegacy s fp uf cOk ai n1 = (s, LegacyUploadResp.insufficientCredits s.credits, [])) ∧
    ((uploadLegacy s fp uf cOk ai n1).2.2 ≠ [] →
      1 ≤ s.credits ∧ (uploadLegacy s fp uf cOk ai n1).2.2.head? = some (s.credits - 1)) ∧
    (0 ≤ s.credits → (∀ b ∈ (uploadLegacy s fp uf cOk ai n1).2.2, 0 ≤ b) ∧
      0 ≤ (uploadLegacy s fp uf cOk ai n1).1.credits) ∧
    (vOk = true → fp2 = true → uf2 = true → s.credits < 1 →
      uploadBackend s vOk fp2 uf2 cOk2 ai2 n2 =
        (s, BackendUploadResp.insufficientCredits s.credits, [])) ∧
    ((uploadBackend s vOk fp2 uf2 cOk2 ai2 n2).2.2 ≠ [] →
      1 ≤ s.credits ∧
      (uploadBackend s vOk fp2 uf2 cOk2 ai2 n2).2.2.head? = some (s.credits - 1)) ∧
    (0 ≤ s.credits → (∀ b ∈ (uploadBackend s vOk fp2 uf2 cOk2 ai2 n2).2.2, 0 ≤ b) ∧
      0 ≤ (uploadBackend s vOk fp2 uf2 cOk2 ai2 n2).1.credits) := by
  refine ⟨?_, ?_, ?_, ?_, ?_, ?_⟩
  · intro h1 h2 h3
    subst h1; subst h2
    simp [uploadLegacy, h3]
  · intro hne
    rcases fp with _ | _ <;> rcases uf with _ | _ <;>
      simp only [uploadLegacy, Bool.not_true, Bool.not_false, if_true, if_false] at hne ⊢ <;>
      try exact absurd rfl hne
    by_cases h3 : s.credits < 1
    · rw [if_pos h3] at hne ⊢
      exact absurd rfl hne
    · rw [if_neg h3] at hne ⊢
      refine ⟨by omega, ?_⟩
      rcases cOk with _ | _ <;> rcases ai with e | a <;> simp
  · intro h0
    rcases fp with _ | _ <;> rcases uf with _ | _ <;>
      simp only [uploadLegacy, Bool.not_true, Bool.not_false, if_true, if_false] <;>
      try exact ⟨by simp, h0⟩
    by_cases h3 : s.credits < 1
    · rw [if_pos h3]
      exact ⟨by simp, h0⟩
    · rw [if_neg h3]
      rcases cOk with _ | _ <;> rcases ai with e | a <;> simp <;> omega
  · intro h1 h2 h3 h4
    subst h1; subst h2; subst h3
    simp [uploadBackend, h4]
  · intro hne
    rcases vOk with _ | _ <;> rcases fp2 with _ | _ <;> rcases uf2 with _ | _ <;>
      simp only [uploadBackend, Bool.not_true, Bool.not_false, if_true, if_false] at hne ⊢ <;>
      try exact absurd rfl hne
    by_cases h3 : s.credits < 1
    · rw [if_pos h3] at hne ⊢
      exact absurd rfl hne
    · rw [if_neg h3] at hne ⊢
      rcases cOk2 with _ | _
      · simp at hne
      · refine ⟨by omega, ?_⟩
        rcases ai2 with e | a <;> simp
  · intro h0
    rcases vOk with _ | _ <;> rcases fp2 with _ | _ <;> rcases uf2 with _ | _ <;>
      simp only [uploadBackend, Bool.not_true, Bool.not_false, if_true, if_false] <;>
      try exact ⟨by simp, h0⟩
    by_cases h3 : s.credits < 1
    · rw [if_pos h3]
      exact ⟨by simp, h0⟩
    · rw [if_neg h3]
      rcases cOk2 with _ | _
      · exact ⟨by simp, h0⟩
      · rcases ai2 with e | a <;> simp <;> omega

/-- Witness for C7: a user with 0 credits is rejected by both handlers with
no state change. -/
theorem credits_never_negative_witness :
    uploadLegacy ⟨0, []⟩ true true true (Except.error "x") 1 =
      (⟨0, []⟩, LegacyUploadResp.insufficientCredits 0, []) ∧
    uploadBackend ⟨0, []⟩ true true true true (Except.error "x") 1 =
      (⟨0, []⟩, BackendUploadResp.insufficientCredits 0, []) :=
  ⟨(credits_never_negative ⟨0, []⟩ true true true true true true true
      (Except.error "x") (Except.error "x") 1 1).1 rfl rfl (by norm_num),
   (credits_never_negative ⟨0, []⟩ true true true true true true true
      (Except.error "x") (Except.error "x") 1 1).2.2.2.1 rfl rfl rfl (by norm_num)⟩

/-- C1 at the failing input: in the TypeScript handler a run that passes
validation and debits a credit, whose provider call then fails, ends with
the analysis marked `failed` but the balance still debited — the `.catch`
only flips the status and never refunds, so the post-failure balance is the
pre-run balance minus 1, not the pre-run balance. -/
theorem backend_failed_run_keeps_debit :
    uploadBackend ⟨1, []⟩ true true true true (Except.error "AI failed") 7 =
      (⟨0, [(7, "failed")]⟩, BackendUploadResp.accepted 7, [0]) := by
  simp [uploadBackend, setStatus]

/-- The legacy handler, by contrast, does refund on AI failure: the final
balance equals the pre-run balance and the row is terminal `failed`. -/
theorem legacy_ai_failure_refunds (s : DBState) (e : String) (n : Nat)
    (h1 : 1 ≤ s.credits) :
    (uploadLegacy s true true true (Except.error e) n).1.credits = s.credits ∧
    (uploadLegacy s true true true (Except.error e) n).2.1 = LegacyUploadResp.aiFailed n := by
  have h3 : ¬ s.credits < 1 := by omega
  simp [uploadLegacy, h3]

/-- Witness for the legacy refund lemma at balance 1. -/
theorem legacy_ai_failure_refunds_witness :
    (uploadLegacy ⟨1, []⟩ true true true (Except.error "x") 7).1.credits = 1 :=
  (legacy_ai_failure_refunds ⟨1, []⟩ "x" 7 (by norm_num)).1

end ParasitePro
